import Mathlib

/-!
# IoT room thermometer (ESP32 + OLED): shared settings

A shallow embedding of `common_settings.h`, the header of compile-time
constants shared by all versions of the firmware, followed by a model of the
control loop that the specification describes around those constants, and by
the properties of both that the specification relies on.

Every C preprocessor constant of the header becomes a Lean constant of the
same name.  The integer literals are all non-negative and far below any
machine-word limit, so they are embedded as `Nat`; the two string literals are
embedded as `String`.
-/

namespace CommonSettings

/-! ## The constants of `common_settings.h`, in source order -/

/-- InfluxDB measurement name for the readings (header line 4). -/
def INFLUX_MEASUREMENT : String := "temperature"

/-- InfluxDB measurement name for the alerts (header line 5). -/
def INFLUX_ALERT : String := "alerts"

/-- Number of times to try to connect to Wi-Fi before giving up (line 6). -/
def WIFI_MAX_TRIES : Nat := 12

/-- Number of times to try to connect to InfluxDB before giving up (line 7). -/
def INFLUX_MAX_TRIES : Nat := 3

/-- Pause each time in the loop, in milliseconds (line 8). -/
def LOOP_DELAY : Nat := 10000

/-- Number of times through the loop before reporting to InfluxDB (line 9). -/
def REPORT_INTERVAL : Nat := 30

/-- Pin for I2C SDA (line 10). -/
def SDA : Nat := 4

/-- Pin for I2C SCL (line 11). -/
def SCL : Nat := 15

/-- I2C address of the OLED display (line 12). -/
def DISPLAY_ADDR : Nat := 0x3C

/-- I2C address of the SHT21 sensor board (line 13). -/
def SENSOR_ADDR : Nat := 0x40

/-- Height of font size 1 in pixels (line 14). -/
def LINE_HEIGHT_1 : Nat := 8

/-- Vertical position of the humidity line (line 15). -/
def HUM_Y : Nat := 30

/-- Selector for left alignment (line 16). -/
def ALIGN_LEFT : Nat := 0

/-- Selector for right alignment (line 17). -/
def ALIGN_RIGHT : Nat := 1

/-- Alert threshold, on a scale of 0-9 with 9 being the highest (line 18). -/
def ALERT_URGENCY : Nat := 3

/-- OLED display width, in pixels (line 20). -/
def SCREEN_WIDTH : Nat := 128

/-- OLED display height, in pixels (line 21). -/
def SCREEN_HEIGHT : Nat := 64

/-- Reset pin of the display, 16 for the TTGO board (line 22). -/
def OLED_RESET : Nat := 16

/-- Horizontal anchor of the temperature text (line 23). -/
def TEMPC_X_POS : Nat := 1

/-- Vertical anchor of the temperature text (line 24). -/
def TEMPC_Y_POS : Nat := 36

/-! ## The loop driver and its report decision

The sketch's `loop()` function is not part of the shared header.  The
definitions of this section follow the specification's description of the
control loop: sensor read, display, then, every `REPORT_INTERVAL` iterations,
the network reporter with its two retry ceilings.
-/

/-- Modelled from the spec: the behaviour of the external collaborators that
the loop consumes (sensor driver, display driver, network stack, database
client; the sketch that calls them is not in the header).  `sensorOk i` tells
whether the sensor read of loop iteration `i` yields a reading, `displayOk i`
whether the bus transaction to the display succeeds, `wifiOk i n` whether the
`n`-th link attempt made on iteration `i` succeeds, and `writeOk i n` whether
the `n`-th database write attempt made on iteration `i` succeeds. -/
structure Env where
  sensorOk : Nat → Bool
  displayOk : Nat → Bool
  wifiOk : Nat → Nat → Bool
  writeOk : Nat → Nat → Bool

/-- Modelled from the spec: the link states of the network reporter's state
machine (`Connecting` and `Reporting` are transient within one iteration). -/
inductive Link where
  | Disconnected
  | Connected
  deriving DecidableEq

/-- Modelled from the spec: what one loop iteration did about the report.
`NotDue`: the iteration is not a report boundary.  `SensorUnavailable`: the
sensor read failed, so display and report were skipped.  `LinkUnavailable`:
the link was not established within the Wi-Fi ceiling and the report was
dropped.  `ReportWriteFailed`: the write did not succeed within the database
ceiling and the report was dropped.  `Written`: the report was written. -/
inductive ReportOutcome where
  | NotDue
  | SensorUnavailable
  | LinkUnavailable
  | ReportWriteFailed
  | Written
  deriving DecidableEq

/-- Modelled from the spec: the network reporter was run on the iteration
(whether or not the report got through). -/
def ReportOutcome.attempted : ReportOutcome → Bool
  | .LinkUnavailable => true
  | .ReportWriteFailed => true
  | .Written => true
  | .NotDue => false
  | .SensorUnavailable => false

/-- Modelled from the spec: a flat retry loop.  Starting with attempt number
`n`, make at most `remaining` attempts and stop at the first that succeeds. -/
def tryWithin (ok : Nat → Bool) : (n remaining : Nat) → Bool
  | _, 0 => false
  | n, r + 1 => ok n || tryWithin ok (n + 1) r

/-- Modelled from the spec: attempts number `1, ..., ceiling` are made until
one succeeds; the attempt after the ceiling is never made. -/
def succeedsWithin (ceiling : Nat) (ok : Nat → Bool) : Bool :=
  tryWithin ok 1 ceiling

/-- Modelled from the spec: the `Reporting` stage, entered with the link up.
The write is retried up to `INFLUX_MAX_TRIES` times; on exhausting the
ceiling the reporter remains `Connected` and the report is dropped. -/
def writeReport (env : Env) (i : Nat) : Link × ReportOutcome :=
  if succeedsWithin INFLUX_MAX_TRIES (env.writeOk i) then
    (Link.Connected, ReportOutcome.Written)
  else
    (Link.Connected, ReportOutcome.ReportWriteFailed)

/-- Modelled from the spec: the network reporter's state machine for one
report, `Disconnected → Connecting (≤ WIFI_MAX_TRIES) → Connected →
Reporting (≤ INFLUX_MAX_TRIES) → Connected`; on exhausting the link ceiling it
goes back to `Disconnected` and the report is dropped. -/
def networkReport (env : Env) (i : Nat) : Link → Link × ReportOutcome
  | .Connected => writeReport env i
  | .Disconnected =>
    if succeedsWithin WIFI_MAX_TRIES (env.wifiOk i) then
      writeReport env i
    else
      (Link.Disconnected, ReportOutcome.LinkUnavailable)

/-- Modelled from the spec: the result of one loop iteration: the link state
it leaves, whether the display was updated, and what happened to the report. -/
structure IterationResult where
  link : Link
  displayed : Bool
  report : ReportOutcome

/-- Modelled from the spec: one pass of the loop driver on iteration count
`i`, entered with link state `link`: sensor reader, then display renderer,
then, every `REPORT_INTERVAL` iterations, the network reporter.  A failed
sensor read suppresses both display and report for that iteration; a failed
display transaction only skips the rendering. -/
def loopIteration (env : Env) (i : Nat) (link : Link) : IterationResult :=
  if env.sensorOk i then
    let r := if i % REPORT_INTERVAL == 0 then networkReport env i link
             else (link, ReportOutcome.NotDue)
    ⟨r.1, env.displayOk i, r.2⟩
  else
    ⟨link, false, ReportOutcome.SensorUnavailable⟩

/-- Modelled from the spec: collaborators that never fail. -/
def envAllOk : Env :=
  ⟨fun _ => true, fun _ => true, fun _ _ => true, fun _ _ => true⟩

/-- Modelled from the spec: collaborators that never fail, except that the
sensor read of iteration 60 fails (a bus timeout). -/
def envSensorFailsAt60 : Env :=
  ⟨fun i => i != 60, fun _ => true, fun _ _ => true, fun _ _ => true⟩

/-! ## Properties -/

/-! ### The retry loop and the report decision, characterised -/

/-- The retry loop succeeds iff one of the attempts `n, ..., n + r - 1`
succeeds. -/
theorem tryWithin_iff (ok : Nat → Bool) (r : Nat) :
    ∀ n, tryWithin ok n r = true ↔ ∃ m, n ≤ m ∧ m < n + r ∧ ok m = true := by
  induction r with
  | zero =>
    intro n
    simp only [tryWithin, Bool.false_eq_true, false_iff, not_exists]
    intro m hm
    omega
  | succ r ih =>
    intro n
    simp only [tryWithin, Bool.or_eq_true, ih]
    constructor
    · rintro (h | ⟨m, h1, h2, h3⟩)
      · exact ⟨n, Nat.le_refl n, by omega, h⟩
      · exact ⟨m, by omega, by omega, h3⟩
    · rintro ⟨m, h1, h2, h3⟩
      by_cases hm : m = n
      · exact Or.inl (hm ▸ h3)
      · exact Or.inr ⟨m, by omega, by omega, h3⟩

/-- A retried operation succeeds within its ceiling iff one of the attempts
number `1, ..., ceiling` succeeds. -/
theorem succeedsWithin_iff (ceiling : Nat) (ok : Nat → Bool) :
    succeedsWithin ceiling ok = true ↔
      ∃ n, 1 ≤ n ∧ n ≤ ceiling ∧ ok n = true := by
  unfold succeedsWithin
  rw [tryWithin_iff]
  constructor
  · rintro ⟨m, h1, h2, h3⟩
    exact ⟨m, h1, by omega, h3⟩
  · rintro ⟨m, h1, h2, h3⟩
    exact ⟨m, h1, by omega, h3⟩

/-- The write stage always runs the reporter. -/
theorem writeReport_attempted (env : Env) (i : Nat) :
    (writeReport env i).2.attempted = true := by
  unfold writeReport
  split <;> rfl

/-- The network reporter, once entered, counts as an attempt whatever the
link state and the outcome. -/
theorem networkReport_attempted (env : Env) (i : Nat) (link : Link) :
    (networkReport env i link).2.attempted = true := by
  cases link with
  | Connected => exact writeReport_attempted env i
  | Disconnected =>
    by_cases hc : succeedsWithin WIFI_MAX_TRIES (env.wifiOk i) = true
    · simp only [networkReport, hc, if_true]
      exact writeReport_attempted env i
    · simp only [networkReport, hc, if_false]
      rfl

/-- The reporter is run on an iteration iff the iteration count is a report
boundary and the sensor read succeeded. -/
theorem attempted_iff (env : Env) (i : Nat) (link : Link) :
    (loopIteration env i link).report.attempted = true ↔
      i % REPORT_INTERVAL = 0 ∧ env.sensorOk i = true := by
  unfold loopIteration
  by_cases hs : env.sensorOk i = true
  · by_cases hb : i % REPORT_INTERVAL = 0
    · simp [hs, hb, networkReport_attempted]
    · simp [hs, hb, ReportOutcome.attempted]
  · simp [hs, ReportOutcome.attempted]

/-- The report is written iff the reporter is run, the link is up or comes up
within the Wi-Fi ceiling, and the write succeeds within the database
ceiling. -/
theorem written_iff (env : Env) (i : Nat) (link : Link) :
    (loopIteration env i link).report = ReportOutcome.Written ↔
      i % REPORT_INTERVAL = 0 ∧ env.sensorOk i = true ∧
      (link = Link.Connected ∨
        succeedsWithin WIFI_MAX_TRIES (env.wifiOk i) = true) ∧
      succeedsWithin INFLUX_MAX_TRIES (env.writeOk i) = true := by
  unfold loopIteration
  by_cases hs : env.sensorOk i = true
  · by_cases hb : i % REPORT_INTERVAL = 0
    · by_cases hw : succeedsWithin INFLUX_MAX_TRIES (env.writeOk i) = true
      · cases link with
        | Connected => simp [hs, hb, hw, networkReport, writeReport]
        | Disconnected =>
          by_cases hc : succeedsWithin WIFI_MAX_TRIES (env.wifiOk i) = true
          · simp [hs, hb, hw, hc, networkReport, writeReport]
          · simp [hs, hb, hw, hc, networkReport]
      · cases link with
        | Connected => simp [hs, hb, hw, networkReport, writeReport]
        | Disconnected =>
          by_cases hc : succeedsWithin WIFI_MAX_TRIES (env.wifiOk i) = true
          · simp [hs, hb, hw, hc, networkReport, writeReport]
          · simp [hs, hb, hw, hc, networkReport]
    · simp [hs, hb]
  · simp [hs]

/-- An iteration count is a report boundary iff it is a multiple of 30. -/
theorem boundary_iff (i : Nat) :
    i % REPORT_INTERVAL = 0 ↔ ∃ k, i = 30 * k := by
  simp only [REPORT_INTERVAL]
  constructor
  · intro h
    exact ⟨i / 30, by omega⟩
  · rintro ⟨k, rfl⟩
    omega

/-- C1: the retry ceilings are `WIFI_MAX_TRIES = 12` and
`INFLUX_MAX_TRIES = 3`; for every attempt number `n ≥ 1`, `n` is within the
Wi-Fi ceiling iff `n ≤ 12` and within the database-write ceiling iff `n ≤ 3`.
In particular the 12th Wi-Fi attempt and the 3rd write attempt are allowed,
the 13th Wi-Fi attempt and the 4th write attempt are excluded. -/
theorem retry_ceilings (n : Nat) (_hn : 1 ≤ n) :
    WIFI_MAX_TRIES = 12 ∧ INFLUX_MAX_TRIES = 3 ∧
    (n ≤ WIFI_MAX_TRIES ↔ n ≤ 12) ∧ (n ≤ INFLUX_MAX_TRIES ↔ n ≤ 3) ∧
    12 ≤ WIFI_MAX_TRIES ∧ 3 ≤ INFLUX_MAX_TRIES ∧
    ¬ 13 ≤ WIFI_MAX_TRIES ∧ ¬ 4 ≤ INFLUX_MAX_TRIES := by
  refine ⟨rfl, rfl, Iff.rfl, Iff.rfl, ?_, ?_, ?_, ?_⟩ <;> decide

/-- Instance of C1 at the last permitted Wi-Fi attempt, `n = 12`. -/
theorem retry_ceilings_witness :
    (1 ≤ 12) ∧
    (WIFI_MAX_TRIES = 12 ∧ INFLUX_MAX_TRIES = 3 ∧
     (12 ≤ WIFI_MAX_TRIES ↔ 12 ≤ 12) ∧ (12 ≤ INFLUX_MAX_TRIES ↔ 12 ≤ 3) ∧
     12 ≤ WIFI_MAX_TRIES ∧ 3 ≤ INFLUX_MAX_TRIES ∧
     ¬ 13 ≤ WIFI_MAX_TRIES ∧ ¬ 4 ≤ INFLUX_MAX_TRIES) :=
  ⟨by decide, retry_ceilings 12 (by decide)⟩

/-- C2: `ALERT_URGENCY` is 3 and lies on the 0-9 urgency scale; for every
urgency `u` with `0 ≤ u ≤ 9` the alert condition `u ≥ ALERT_URGENCY` holds iff
`u` is one of 3, ..., 9.  In particular urgency 3 triggers an alert and
urgency 2 does not. -/
theorem alert_threshold (u : Nat) (hu : u ≤ 9) :
    ALERT_URGENCY = 3 ∧ 0 ≤ ALERT_URGENCY ∧ ALERT_URGENCY ≤ 9 ∧
    (u ≥ ALERT_URGENCY ↔ u ∈ ({3, 4, 5, 6, 7, 8, 9} : Finset Nat)) ∧
    3 ≥ ALERT_URGENCY ∧ ¬ 2 ≥ ALERT_URGENCY := by
  refine ⟨rfl, Nat.zero_le _, by decide, ?_, by decide, by decide⟩
  simp only [ALERT_URGENCY, Finset.mem_insert, Finset.mem_singleton]
  omega

/-- Instance of C2 at the boundary urgency `u = 3`. -/
theorem alert_threshold_witness :
    (3 ≤ 9) ∧
    (ALERT_URGENCY = 3 ∧ 0 ≤ ALERT_URGENCY ∧ ALERT_URGENCY ≤ 9 ∧
     (3 ≥ ALERT_URGENCY ↔ 3 ∈ ({3, 4, 5, 6, 7, 8, 9} : Finset Nat)) ∧
     3 ≥ ALERT_URGENCY ∧ ¬ 2 ≥ ALERT_URGENCY) :=
  ⟨by decide, alert_threshold 3 (by decide)⟩

/-- C3: the loop timing constants are `LOOP_DELAY = 10000` (milliseconds
between loop iterations) and `REPORT_INTERVAL = 30` (loop iterations between
reports). -/
theorem loop_timing : LOOP_DELAY = 10000 ∧ REPORT_INTERVAL = 30 :=
  ⟨rfl, rfl⟩

/-- C4: the bus configuration is `DISPLAY_ADDR = 0x3C` (60),
`SENSOR_ADDR = 0x40` (64), SDA pin 4 and SCL pin 15. -/
theorem bus_configuration :
    DISPLAY_ADDR = 0x3C ∧ DISPLAY_ADDR = 60 ∧
    SENSOR_ADDR = 0x40 ∧ SENSOR_ADDR = 64 ∧
    SDA = 4 ∧ SCL = 15 :=
  ⟨rfl, rfl, rfl, rfl, rfl, rfl⟩

/-- C5: the display configuration is `SCREEN_WIDTH = 128`,
`SCREEN_HEIGHT = 64`, `OLED_RESET = 16`, temperature anchor
`(TEMPC_X_POS, TEMPC_Y_POS) = (1, 36)`, `HUM_Y = 30`, `LINE_HEIGHT_1 = 8`, and
the alignment selectors are `ALIGN_LEFT = 0` and `ALIGN_RIGHT = 1`, two
distinct values. -/
theorem display_configuration :
    SCREEN_WIDTH = 128 ∧ SCREEN_HEIGHT = 64 ∧ OLED_RESET = 16 ∧
    (TEMPC_X_POS, TEMPC_Y_POS) = (1, 36) ∧ HUM_Y = 30 ∧ LINE_HEIGHT_1 = 8 ∧
    ALIGN_LEFT = 0 ∧ ALIGN_RIGHT = 1 ∧ ALIGN_LEFT ≠ ALIGN_RIGHT :=
  ⟨rfl, rfl, rfl, rfl, rfl, rfl, rfl, rfl, by decide⟩

/-- C6: the metrics channel names are `INFLUX_MEASUREMENT = "temperature"`
and `INFLUX_ALERT = "alerts"`, and the two names are different strings. -/
theorem channel_names :
    INFLUX_MEASUREMENT = "temperature" ∧ INFLUX_ALERT = "alerts" ∧
    INFLUX_MEASUREMENT ≠ INFLUX_ALERT :=
  ⟨rfl, rfl, by decide⟩

/-- C7, as stated, fails on the loop driver: when the sensor read of
iteration 60 fails, iteration 60 is an exact multiple of `REPORT_INTERVAL` on
which no report is performed (the reporter is not even run), and the
consecutive reports of iterations 30 and 90 are 60 iterations apart, with no
report on any iteration in between. -/
theorem report_cadence_refuted :
    (∃ k, 60 = REPORT_INTERVAL * k) ∧
    (∀ l, (loopIteration envSensorFailsAt60 60 l).report =
      ReportOutcome.SensorUnavailable) ∧
    (∀ l, ¬ ((loopIteration envSensorFailsAt60 60 l).report.attempted = true ↔
      ∃ k, 60 = REPORT_INTERVAL * k)) ∧
    (∀ l, (loopIteration envSensorFailsAt60 30 l).report =
      ReportOutcome.Written) ∧
    (∀ l, (loopIteration envSensorFailsAt60 90 l).report =
      ReportOutcome.Written) ∧
    (∀ j l, 30 < j → j < 90 →
      (loopIteration envSensorFailsAt60 j l).report.attempted = false) ∧
    90 ≠ 30 + REPORT_INTERVAL := by
  have h60 : ∀ l, (loopIteration envSensorFailsAt60 60 l).report =
      ReportOutcome.SensorUnavailable := by
    intro l
    cases l <;> decide
  refine ⟨⟨2, rfl⟩, h60, ?_, ?_, ?_, ?_, by decide⟩
  · intro l h
    have ha := h.mpr ⟨2, rfl⟩
    rw [h60 l] at ha
    exact Bool.noConfusion ha
  · intro l
    cases l <;> decide
  · intro l
    cases l <;> decide
  · intro j l h1 h2
    cases hj : (loopIteration envSensorFailsAt60 j l).report.attempted with
    | false => rfl
    | true =>
      have h := (attempted_iff envSensorFailsAt60 j l).mp hj
      have hb : j % 30 = 0 := h.1
      have hj60 : j = 60 := by omega
      have hs := h.2
      rw [hj60] at hs
      exact absurd hs (by decide)

/-- C7, amended: the network reporter is run on loop iteration `i` iff `i` is
an exact multiple of `REPORT_INTERVAL` (30) and the sensor read of that
iteration succeeded, and the report is written iff in addition the link is up
or comes up within `WIFI_MAX_TRIES` attempts and the write succeeds within
`INFLUX_MAX_TRIES` attempts.  Hence two iterations on which the reporter is
run are a positive multiple of `REPORT_INTERVAL` iterations apart; after a
report on iteration `i` none is performed on the next `REPORT_INTERVAL - 1`
iterations, and one is performed on iteration `i + REPORT_INTERVAL` when its
sensor read succeeds.  All of this is counted in loop iterations. -/
theorem report_cadence (env : Env) (link : Link) (i : Nat) :
    ((loopIteration env i link).report.attempted = true ↔
      (∃ k, i = 30 * k) ∧ env.sensorOk i = true) ∧
    ((loopIteration env i link).report = ReportOutcome.Written ↔
      (∃ k, i = 30 * k) ∧ env.sensorOk i = true ∧
      (link = Link.Connected ∨
        ∃ n, 1 ≤ n ∧ n ≤ WIFI_MAX_TRIES ∧ env.wifiOk i n = true) ∧
      (∃ n, 1 ≤ n ∧ n ≤ INFLUX_MAX_TRIES ∧ env.writeOk i n = true)) ∧
    (∀ j l, i < j →
      (loopIteration env i link).report.attempted = true →
      (loopIteration env j l).report.attempted = true →
      ∃ k, 1 ≤ k ∧ j = i + REPORT_INTERVAL * k) ∧
    ((loopIteration env i link).report.attempted = true →
      (∀ j l, i < j → j < i + REPORT_INTERVAL →
        (loopIteration env j l).report.attempted = false) ∧
      (env.sensorOk (i + REPORT_INTERVAL) = true →
        ∀ l, (loopIteration env (i + REPORT_INTERVAL) l).report.attempted
          = true)) := by
  refine ⟨?_, ?_, ?_, ?_⟩
  · rw [attempted_iff, boundary_iff]
  · rw [written_iff, boundary_iff, succeedsWithin_iff, succeedsWithin_iff]
  · intro j l hij hi hj
    have h1 := ((attempted_iff env i link).mp hi).1
    have h2 := ((attempted_iff env j l).mp hj).1
    simp only [REPORT_INTERVAL] at h1 h2 ⊢
    exact ⟨(j - i) / 30, by omega, by omega⟩
  · intro hi
    have h1 := ((attempted_iff env i link).mp hi).1
    simp only [REPORT_INTERVAL] at h1
    refine ⟨?_, ?_⟩
    · intro j l hij hji
      simp only [REPORT_INTERVAL] at hji
      cases hj : (loopIteration env j l).report.attempted with
      | false => rfl
      | true =>
        have h2 := ((attempted_iff env j l).mp hj).1
        simp only [REPORT_INTERVAL] at h2
        omega
    · intro hs l
      refine (attempted_iff env (i + REPORT_INTERVAL) l).mpr ⟨?_, hs⟩
      simp only [REPORT_INTERVAL]
      omega

/-- Instance of C7 (amended) with collaborators that never fail: the report
of iteration 30 is written from a disconnected link, the reporter is not run
on iterations 31, ..., 59, and it is run again on iteration 60. -/
theorem report_cadence_witness :
    (loopIteration envAllOk 30 Link.Disconnected).report
      = ReportOutcome.Written ∧
    (loopIteration envAllOk 30 Link.Disconnected).report.attempted = true ∧
    envAllOk.sensorOk (30 + REPORT_INTERVAL) = true ∧
    (∀ j l, 30 < j → j < 30 + REPORT_INTERVAL →
      (loopIteration envAllOk j l).report.attempted = false) ∧
    (∀ l, (loopIteration envAllOk (30 + REPORT_INTERVAL) l).report.attempted
      = true) ∧
    (∃ k, 1 ≤ k ∧ 60 = 30 + REPORT_INTERVAL * k) :=
  ⟨by decide, by decide, by decide,
   ((report_cadence envAllOk Link.Disconnected 30).2.2.2 (by decide)).1,
   ((report_cadence envAllOk Link.Disconnected 30).2.2.2 (by decide)).2
     (by decide),
   (report_cadence envAllOk Link.Disconnected 30).2.2.1 60 Link.Connected
     (by decide) (by decide) (by decide)⟩

/-- C8: the two devices on the shared bus cannot collide and the pins cannot
clash: `DISPLAY_ADDR` and `SENSOR_ADDR` are different, each is a non-reserved
7-bit I2C address (in the range 0x08..0x77), and the pin numbers `SDA`, `SCL`
and `OLED_RESET` are pairwise distinct. -/
theorem bus_no_collision :
    DISPLAY_ADDR ≠ SENSOR_ADDR ∧
    (0x08 ≤ DISPLAY_ADDR ∧ DISPLAY_ADDR ≤ 0x77) ∧
    (0x08 ≤ SENSOR_ADDR ∧ SENSOR_ADDR ≤ 0x77) ∧
    SDA ≠ SCL ∧ SDA ≠ OLED_RESET ∧ SCL ≠ OLED_RESET := by
  decide

/-- C9: both text lines lie inside the display canvas: the temperature anchor
satisfies `0 ≤ TEMPC_X_POS < SCREEN_WIDTH`, and a line of height
`LINE_HEIGHT_1` drawn at `TEMPC_Y_POS` or at `HUM_Y` stays within the screen
rows. -/
theorem lines_inside_canvas :
    (0 ≤ TEMPC_X_POS ∧ TEMPC_X_POS < SCREEN_WIDTH) ∧
    0 ≤ HUM_Y ∧ HUM_Y + LINE_HEIGHT_1 ≤ SCREEN_HEIGHT ∧
    0 ≤ TEMPC_Y_POS ∧ TEMPC_Y_POS + LINE_HEIGHT_1 ≤ SCREEN_HEIGHT := by
  decide

/-- C10, as stated, fails: the pixel-row ranges
`[HUM_Y, HUM_Y + LINE_HEIGHT_1)` and
`[TEMPC_Y_POS, TEMPC_Y_POS + LINE_HEIGHT_1)` are not disjoint, since row 36
lies in both (30 ≤ 36 < 38 and 36 ≤ 36 < 44). -/
theorem line_rows_not_disjoint :
    (36 ∈ Finset.Ico HUM_Y (HUM_Y + LINE_HEIGHT_1) ∧
     36 ∈ Finset.Ico TEMPC_Y_POS (TEMPC_Y_POS + LINE_HEIGHT_1)) ∧
    ¬ Disjoint (Finset.Ico HUM_Y (HUM_Y + LINE_HEIGHT_1))
        (Finset.Ico TEMPC_Y_POS (TEMPC_Y_POS + LINE_HEIGHT_1)) := by
  have h1 : 36 ∈ Finset.Ico HUM_Y (HUM_Y + LINE_HEIGHT_1) := by
    simp [HUM_Y, LINE_HEIGHT_1]
  have h2 : 36 ∈ Finset.Ico TEMPC_Y_POS (TEMPC_Y_POS + LINE_HEIGHT_1) := by
    simp [TEMPC_Y_POS, LINE_HEIGHT_1]
  exact ⟨⟨h1, h2⟩, fun hd => Finset.disjoint_left.mp hd h1 h2⟩

/-- C10, amended: the humidity line starts `6` rows above the temperature
line, so with lines `LINE_HEIGHT_1 = 8` pixels high the two row ranges share
exactly the rows `TEMPC_Y_POS ≤ r < HUM_Y + LINE_HEIGHT_1`, that is rows 36
and 37, and no other row. -/
theorem line_rows_overlap (r : Nat) :
    TEMPC_Y_POS = HUM_Y + 6 ∧
    ((r ∈ Finset.Ico HUM_Y (HUM_Y + LINE_HEIGHT_1) ∧
      r ∈ Finset.Ico TEMPC_Y_POS (TEMPC_Y_POS + LINE_HEIGHT_1)) ↔
     (TEMPC_Y_POS ≤ r ∧ r < HUM_Y + LINE_HEIGHT_1)) ∧
    ((TEMPC_Y_POS ≤ r ∧ r < HUM_Y + LINE_HEIGHT_1) ↔ (r = 36 ∨ r = 37)) := by
  refine ⟨rfl, ?_, ?_⟩
  · simp only [Finset.mem_Ico, HUM_Y, TEMPC_Y_POS, LINE_HEIGHT_1]
    omega
  · simp only [HUM_Y, TEMPC_Y_POS, LINE_HEIGHT_1]
    omega

end CommonSettings
